import Mathlib

/-!
# Search page of rollie-front: a shallow embedding of `src/pages/search/Search.jsx`

The React component `Search` keeps its state in `useState` cells and reacts to
events through the handlers `handleChange`, `handleSearch` and
`handleRepeatSearch`.  A handler closes over the values of the render in which
it was created (the *snapshot*); the `setX` calls it makes queue updates for
the next render and do not change what the handler itself reads.  The
embedding keeps that distinction: a handler takes the snapshot as an argument,
reads only from it, and writes into a `World` that holds the state after the
queued updates, the log of external calls, and the pending timers.
-/

namespace Search

/-! ## JavaScript primitives used by the component -/

/-- The value of `s.length` in JavaScript: the number of UTF-16 code units. -/
def jsLength (s : String) : Nat :=
  (s.data.map (fun c => if c.toNat < 0x10000 then 1 else 2)).sum

/-- Truthiness of a JavaScript string: every string but the empty one. -/
def truthy (s : String) : Bool := !(s.data.isEmpty)

/-- A JavaScript number, that is an IEEE 754 double: `NaN`, an infinity,
negative zero, or the finite value `mantissa * 2 ^ exp2` other than negative
zero.  The finite case is kept in lowest terms: `exp2 ≤ 0`, and `mantissa` is
odd when `exp2 < 0`, so that a double has one representation and an integral
double is `finite n 0`. -/
inductive JSNumber where
  | nan
  | infinity (negative : Bool)
  | negZero
  | finite (mantissa : Int) (exp2 : Int)
  deriving DecidableEq, Repr

/-- The number is `NaN`. -/
def JSNumber.isNaN : JSNumber → Bool
  | .nan => true
  | _ => false

/-- The number is `Infinity` or `-Infinity`. -/
def JSNumber.isInfinite : JSNumber → Bool
  | .infinity _ => true
  | _ => false

/-- JavaScript `Number.isInteger`: the number is finite with no fractional
part. -/
def JSNumber.isInteger : JSNumber → Bool
  | .finite _ e => decide (0 ≤ e)
  | .negZero => true
  | _ => false

/-- Number of binary digits of `n`, by halving at most `fuel` times. -/
def bitLengthAux : Nat → Nat → Nat → Nat
  | 0, _, acc => acc
  | fuel + 1, n, acc => if n = 0 then acc else bitLengthAux fuel (n / 2) (acc + 1)

/-- Number of binary digits of `n`: `0` for `0`, and `k + 1` when
`2 ^ k ≤ n < 2 ^ (k + 1)`. -/
def bitLength (n : Nat) : Nat := bitLengthAux n n 0

/-- The integer `k` with `2 ^ k ≤ num / den < 2 ^ (k + 1)`, for positive `num`
and `den`. -/
def floorLog2 (num den : Nat) : Int :=
  let k : Int := (bitLength num : Int) - (bitLength den : Int)
  if den * 2 ^ k.toNat ≤ num * 2 ^ (-k).toNat then k else k - 1

/-- Bring `m * 2 ^ (-shift)` to lowest terms: the result `(m1, s1)` has the
same value `m1 * 2 ^ (-s1)`, with `m1` odd unless `s1 = 0`. -/
def cancelTwos : Nat → Nat → Nat × Nat
  | 0, m => (m, 0)
  | shift + 1, m => if m % 2 = 0 then cancelTwos shift (m / 2) else (m, shift + 1)

/-- The integer `n` with the sign given by the flag. -/
def signedInt (negative : Bool) (n : Nat) : Int := if negative then -(n : Int) else (n : Int)

/-- The zero with the sign given by the flag. -/
def signedZero (negative : Bool) : JSNumber :=
  if negative then JSNumber.negZero else JSNumber.finite 0 0

/-- The quotient `N / D` rounded to the nearest integer, a tie going to the
even one. -/
def roundHalfEven (N D : Nat) : Nat :=
  let q := N / D
  let r := N % D
  if D < 2 * r ∨ (2 * r = D ∧ q % 2 = 1) then q + 1 else q

/-- The double `± n * 2 ^ u`: an infinity from `2 ^ 1024` on, a zero for
`n = 0`, and otherwise the finite value in lowest terms. -/
def packDouble (negative : Bool) (n : Nat) (u : Int) : JSNumber :=
  if 2 ^ 1024 ≤ n * 2 ^ u.toNat then JSNumber.infinity negative
  else if n = 0 then signedZero negative
  else
    let c := cancelTwos (-u).toNat (n * 2 ^ u.toNat)
    JSNumber.finite (signedInt negative c.1) (-(c.2 : Int))

/-- The Number value of the real `± num / den` (`den` positive): the nearest
double, ties going to the even significand; a magnitude that rounds to
`2 ^ 1024` gives an infinity, one that rounds to nothing gives a zero.  The
unit in the last place is `2 ^ u`, where `u` is 52 below the binary exponent
of the magnitude and not below `-1074` (the subnormal range). -/
def roundToDouble (negative : Bool) (num den : Nat) : JSNumber :=
  if num = 0 then signedZero negative
  else
    let u : Int := max (floorLog2 num den) (-1022) - 52
    packDouble negative (roundHalfEven (num * 2 ^ (-u).toNat) (den * 2 ^ u.toNat)) u

/-- ECMAScript `WhiteSpace` and `LineTerminator` code points, the characters
that `parseInt` and `parseFloat` skip at the start of their argument. -/
def isStrWhiteSpaceChar (c : Char) : Bool :=
  let n := c.toNat
  n == 0x09 || n == 0x0A || n == 0x0B || n == 0x0C || n == 0x0D || n == 0x20 ||
  n == 0xA0 || n == 0x1680 || (0x2000 ≤ n && n ≤ 0x200A) || n == 0x2028 ||
  n == 0x2029 || n == 0x202F || n == 0x205F || n == 0x3000 || n == 0xFEFF

/-- ECMAScript `TrimString(s, start)`. -/
def trimStart (cs : List Char) : List Char := cs.dropWhile isStrWhiteSpaceChar

/-- Value of a character as a digit in a radix up to 36. -/
def digitValue (c : Char) : Option Nat :=
  let n := c.toNat
  if 48 ≤ n ∧ n ≤ 57 then some (n - 48)
  else if 97 ≤ n ∧ n ≤ 122 then some (n - 97 + 10)
  else if 65 ≤ n ∧ n ≤ 90 then some (n - 65 + 10)
  else none

/-- The character is a digit of radix `R`. -/
def isRadixDigit (R : Nat) (c : Char) : Bool :=
  match digitValue c with
  | some d => decide (d < R)
  | none => false

/-- The character is one of `0` to `9`. -/
def isDecimalDigit (c : Char) : Bool := isRadixDigit 10 c

/-- Value of a run of radix-`R` digits, most significant first. -/
def digitsValue (R : Nat) (cs : List Char) : Nat :=
  cs.foldl (fun acc c => acc * R + (digitValue c).getD 0) 0

/-- Split an optional leading sign off: the flag says the sign was `-`. -/
def takeSign : List Char → Bool × List Char
  | [] => (false, [])
  | c :: rest =>
    if c = '-' then (true, rest)
    else if c = '+' then (false, rest)
    else (false, c :: rest)

/-- Split a leading `0x` or `0X` off and pick the radix, as `parseInt` does
when it is called without a radix. -/
def takeRadix : List Char → Nat × List Char
  | c :: d :: rest =>
    if c = '0' ∧ (d = 'x' ∨ d = 'X') then (16, rest) else (10, c :: d :: rest)
  | cs => (10, cs)

/-- ECMAScript `parseInt(s)` with no radix argument: `NaN` when no digit is
found, and otherwise the Number value of the signed integer that the digits
denote. -/
def parseInt (s : String) : JSNumber :=
  let signed := takeSign (trimStart s.data)
  let radixed := takeRadix signed.2
  let Z := radixed.2.takeWhile (isRadixDigit radixed.1)
  if Z.isEmpty then JSNumber.nan
  else
    let mathInt : Nat := digitsValue radixed.1 Z
    roundToDouble signed.1 mathInt 1

/-- The exponent part of a decimal literal at the head of the text, when there
is one: `e` or `E`, an optional sign and at least one digit. -/
def takeExponent : List Char → Option Int
  | [] => none
  | c :: rest =>
    if c = 'e' ∨ c = 'E' then
      let signed := takeSign rest
      let ds := signed.2.takeWhile isDecimalDigit
      if ds.isEmpty then none
      else
        let v : Int := digitsValue 10 ds
        some (if signed.1 then -v else v)
    else none

/-- The parts of an unsigned decimal literal at the head of the text: the
digits before the dot, the digits after the dot (none when there is no dot),
and the text that follows them. -/
def splitDecimal (body : List Char) : List Char × List Char × List Char :=
  let intDigits := body.takeWhile isDecimalDigit
  let afterInt := body.dropWhile isDecimalDigit
  let hasDot : Bool := match afterInt with
    | c :: _ => decide (c = '.')
    | [] => false
  if hasDot then
    (intDigits, (afterInt.drop 1).takeWhile isDecimalDigit,
      (afterInt.drop 1).dropWhile isDecimalDigit)
  else (intDigits, [], afterInt)

/-- ECMAScript `parseFloat(s)`: the Number value of the longest prefix of the
trimmed text that is a `StrDecimalLiteral`, and `NaN` when there is none.  The
literal `digits . digits e exponent` denotes the decimal
`mant * 10 ^ (exponent - number of fraction digits)`. -/
def parseFloat (s : String) : JSNumber :=
  let signed := takeSign (trimStart s.data)
  if "Infinity".data.isPrefixOf signed.2 then JSNumber.infinity signed.1
  else
    let parts := splitDecimal signed.2
    if parts.1.isEmpty && parts.2.1.isEmpty then JSNumber.nan
    else
      let mant : Nat := digitsValue 10 (parts.1 ++ parts.2.1)
      let e : Int := (takeExponent parts.2.2).getD 0 - parts.2.1.length
      roundToDouble signed.1 (mant * 10 ^ e.toNat) (10 ^ (-e).toNat)

/-! ## Data -/

/-- The `filters` state cell: eight string fields, in the key order of the
object literal passed to `useState`. -/
structure FilterState where
  reference : String
  brand : String
  condition : String
  color : String
  material : String
  year : String
  priceMin : String
  priceMax : String
  deriving DecidableEq, Repr

/-- The initial value of the `filters` cell. -/
def FilterState.initial : FilterState :=
  { reference := "", brand := "", condition := "", color := "", material := "",
    year := "", priceMin := "", priceMax := "" }

/-- The `name` attributes of the form controls wired to `handleChange`. -/
inductive FieldName where
  | reference | brand | condition | color | material | year | priceMin | priceMax
  deriving DecidableEq, Repr

/-- The object spread `{ ...filters, [name]: value }`. -/
def FilterState.set (f : FilterState) (name : FieldName) (value : String) : FilterState :=
  match name with
  | .reference => { f with reference := value }
  | .brand => { f with brand := value }
  | .condition => { f with condition := value }
  | .color => { f with color := value }
  | .material => { f with material := value }
  | .year => { f with year := value }
  | .priceMin => { f with priceMin := value }
  | .priceMax => { f with priceMax := value }

/-- JavaScript `Object.values(filters)`. -/
def FilterState.values (f : FilterState) : List String :=
  [f.reference, f.brand, f.condition, f.color, f.material, f.year, f.priceMin, f.priceMax]

/-- A record returned by the search backend. -/
structure ResultRecord where
  id : Nat
  deriving DecidableEq, Repr

/-- The object sent to `searchWatches`; `none` stands for `null`. -/
structure Payload where
  referenceCode : String
  colorDial : String
  year : Option JSNumber
  condition : String
  minPrice : Option JSNumber
  maxPrice : Option JSNumber
  deriving DecidableEq, Repr

/-- The state cells of the component. -/
structure SearchState where
  filters : FilterState
  showAdvanced : Bool
  results : List ResultRecord
  showModal : Bool
  historyRefreshToggle : Bool
  referenceSuggestions : List String
  isTyping : Bool
  showAdvancedEnabled : Bool
  searchHistoryLimit : Int
  autocompleteEnabled : Bool
  deriving DecidableEq, Repr

/-- The state of the first render: the arguments of the `useState` calls. -/
def SearchState.initial : SearchState :=
  { filters := FilterState.initial, showAdvanced := false, results := [],
    showModal := false, historyRefreshToggle := false, referenceSuggestions := [],
    isTyping := false, showAdvancedEnabled := false, searchHistoryLimit := 0,
    autocompleteEnabled := false }

/-- A subscription tier as delivered by the session provider.  A capability
attribute that is not set on the tier object is `none`. -/
structure Tier where
  id : Nat
  advancedSearch : Option Bool
  searchHistoryLimit : Option Int
  autocompleteReference : Option Bool
  deriving DecidableEq, Repr

/-- The signed-in user; `planId` may be missing. -/
structure User where
  planId : Option Nat
  deriving DecidableEq, Repr

/-! ## External collaborators and the handler monad -/

/-- The functions imported from `services/watchService`.  Each call either
resolves with a value or rejects with an error. -/
structure Services where
  autocompleteReference : String → Except String (List String)
  searchWatches : Payload → Except String (List ResultRecord)
  getWatchByReference : String → Except String (List ResultRecord)

/-- A call that leaves the component, as it is logged by the embedding. -/
inductive Call where
  | preventDefault
  | autocompleteReference (value : String)
  | searchWatches (payload : Payload)
  | getWatchByReference (reference : String)
  | saveSearchToHistory (filters : FilterState) (limit : Int)
  | consoleError (label : String) (err : String)
  | setTimeout (delay : Nat)
  deriving DecidableEq, Repr

/-- The call is a search query sent to the backend. -/
def Call.isQuery : Call → Bool
  | .searchWatches _ => true
  | .getWatchByReference _ => true
  | _ => false

/-- The call records a search in the history store. -/
def Call.isSave : Call → Bool
  | .saveSearchToHistory _ _ => true
  | _ => false

/-- The call is an autocomplete request. -/
def Call.isAutocomplete : Call → Bool
  | .autocompleteReference _ => true
  | _ => false

/-- The callback handed to `setTimeout` in `handleRepeatSearch`:
`setShowModal(true); setResults(fetchedResults)`, to run after `delay` ms. -/
structure Timer where
  delay : Nat
  showModal : Bool
  results : List ResultRecord
  deriving DecidableEq, Repr

/-- Run the callback of a timer. -/
def Timer.fire (t : Timer) (s : SearchState) : SearchState :=
  { { s with showModal := t.showModal } with results := t.results }

/-- What a handler acts on: the state after the updates queued so far, the
external calls made so far (oldest first), and the timers still pending. -/
structure World where
  state : SearchState
  calls : List Call
  timers : List Timer
  deriving DecidableEq, Repr

/-- The world in which a handler starts on the snapshot `s`. -/
@[simp]
def World.start (s : SearchState) : World := { state := s, calls := [], timers := [] }

/-- The state once every pending timer has fired. -/
def World.settled (w : World) : SearchState :=
  w.timers.foldl (fun s t => t.fire s) w.state

/-- A handler body: it transforms the world and either completes with a value
or throws. -/
def Handler (α : Type) : Type := World → Except String α × World

/-- Complete with a value. -/
@[simp]
def Handler.pure {α : Type} (a : α) : Handler α := fun w => (.ok a, w)

/-- Sequencing: a throw in the first part skips the second. -/
@[simp]
def Handler.bind {α β : Type} (m : Handler α) (f : α → Handler β) : Handler β :=
  fun w =>
    match m w with
    | (.ok a, w1) => f a w1
    | (.error e, w1) => (.error e, w1)

instance : Monad Handler where
  pure := Handler.pure
  bind := Handler.bind

/-- The statement `try { body } catch (err) { handler }`. -/
@[simp]
def Handler.tryCatch {α : Type} (body : Handler α) (handler : String → Handler α) : Handler α :=
  fun w =>
    match body w with
    | (.ok a, w1) => (.ok a, w1)
    | (.error e, w1) => handler e w1

/-- Log an external call that returns nothing of interest. -/
@[simp]
def Handler.call (c : Call) : Handler Unit :=
  fun w => (.ok (), { w with calls := w.calls ++ [c] })

/-- Log an external call and await its outcome: a rejection is thrown. -/
@[simp]
def Handler.await {α : Type} (c : Call) (r : Except String α) : Handler α :=
  fun w => (r, { w with calls := w.calls ++ [c] })

/-- Queue a state update (a `setX` call). -/
@[simp]
def Handler.update (f : SearchState → SearchState) : Handler Unit :=
  fun w => (.ok (), { w with state := f w.state })

/-- The call `setTimeout(callback, delay)`. -/
@[simp]
def Handler.setTimeout (t : Timer) : Handler Unit :=
  fun w => (.ok (), { w with calls := w.calls ++ [Call.setTimeout t.delay],
                             timers := w.timers ++ [t] })

/-- Run a handler created in the render with state `s`. -/
@[simp]
def Handler.run {α : Type} (h : Handler α) (s : SearchState) : Except String α × World :=
  h (World.start s)

/-! ## The component -/

/-- The lookup `tiers?.find((t) => t.id === user?.planId)`. -/
def userTier (tiers : Option (List Tier)) (user : Option User) : Option Tier :=
  match tiers with
  | none => none
  | some ts => ts.find? (fun t => decide (some t.id = user.bind (fun u => u.planId)))

/-- JavaScript `a || b` on numbers. -/
def jsOr (a b : Int) : Int := if a = 0 then b else a

/-- The body of the `useEffect` that depends on `userTier`. -/
def tierEffect (tier : Option Tier) (s : SearchState) : SearchState :=
  match tier with
  | some t =>
    { s with
      showAdvancedEnabled := (t.advancedSearch.getD false || false)
      searchHistoryLimit := jsOr (t.searchHistoryLimit.getD 0) 0
      autocompleteEnabled := (t.autocompleteReference.getD false || false) }
  | none => s

/-- The capability cells `(showAdvancedEnabled, searchHistoryLimit,
autocompleteEnabled)` of a state. -/
def SearchState.capabilities (s : SearchState) : Bool × Int × Bool :=
  (s.showAdvancedEnabled, s.searchHistoryLimit, s.autocompleteEnabled)

/-- The handler `handleChange`, with `e.target` given as `name` and `value`. -/
def handleChange (env : Services) (snap : SearchState) (name : FieldName) (value : String) :
    Handler Unit := do
  Handler.update (fun s => { s with filters := snap.filters.set name value })
  if name = FieldName.reference then
    Handler.update (fun s => { s with isTyping := true })
    if snap.autocompleteEnabled && decide (jsLength value ≥ 3) then
      Handler.tryCatch
        (do
          let suggestions ← Handler.await (Call.autocompleteReference value)
            (env.autocompleteReference value)
          Handler.update (fun s => { s with referenceSuggestions := suggestions }))
        (fun _ => Handler.update (fun s => { s with referenceSuggestions := [] }))
    else
      Handler.update (fun s => { s with referenceSuggestions := [] })
  else
    pure ()

/-- The object literal `payload`, written out in `handleSearch` and again in
`handleRepeatSearch`. -/
def buildPayload (filters : FilterState) : Payload :=
  { referenceCode := filters.reference
    colorDial := filters.color
    year := if truthy filters.year then some (parseInt filters.year) else none
    condition := filters.condition
    minPrice := if truthy filters.priceMin then some (parseFloat filters.priceMin) else none
    maxPrice := if truthy filters.priceMax then some (parseFloat filters.priceMax) else none }

/-- The `catch` block shared by both search handlers. -/
@[simp]
def searchCatch (err : String) : Handler Unit := do
  Handler.call (Call.consoleError "Search error:" err)
  Handler.update (fun s => { s with results := [] })
  Handler.update (fun s => { s with showModal := true })

/-- The part of the `try` block of `handleSearch` that follows the fetch. -/
@[simp]
def afterFetch (snap : SearchState) (fetchedResults : List ResultRecord) : Handler Unit := do
  if snap.searchHistoryLimit > 0 then
    Handler.call (Call.saveSearchToHistory snap.filters snap.searchHistoryLimit)
    Handler.update (fun s => { s with historyRefreshToggle := !s.historyRefreshToggle })
  else
    pure ()
  Handler.update (fun s => { s with results := fetchedResults })
  Handler.update (fun s => { s with showModal := true })

/-- The handler `handleSearch`. -/
def handleSearch (env : Services) (snap : SearchState) : Handler Unit := do
  Handler.call Call.preventDefault
  if !(snap.filters.values.any truthy) then
    pure ()
  else
    Handler.tryCatch
      (if snap.showAdvancedEnabled && snap.showAdvanced then do
        let payload := buildPayload snap.filters
        let fetchedResults ← Handler.await (Call.searchWatches payload)
          (env.searchWatches payload)
        afterFetch snap fetchedResults
      else if !(truthy snap.filters.reference) then
        pure ()
      else do
        let fetchedResults ← Handler.await (Call.getWatchByReference snap.filters.reference)
          (env.getWatchByReference snap.filters.reference)
        afterFetch snap fetchedResults)
      searchCatch

/-- JavaScript `a || b` on string lengths. -/
def lengthOr (a b : Nat) : Nat := if a = 0 then b else a

/-- The operand `filters.color.length || ... || filters.reference.length` of
the mode test in `handleRepeatSearch`. -/
def anyLength (filters : FilterState) : Nat :=
  lengthOr (jsLength filters.color) (lengthOr (jsLength filters.year)
    (lengthOr (jsLength filters.condition) (lengthOr (jsLength filters.priceMin)
      (lengthOr (jsLength filters.priceMax) (jsLength filters.reference)))))

/-- The `setTimeout` call that closes the `try` block of `handleRepeatSearch`. -/
@[simp]
def showLater (fetchedResults : List ResultRecord) : Handler Unit :=
  Handler.setTimeout { delay := 100, showModal := true, results := fetchedResults }

/-- The handler `handleRepeatSearch`.  As in the source, the mode test and the
query read `filters` of the snapshot, not the argument `prevFilters`. -/
def handleRepeatSearch (env : Services) (snap : SearchState) (prevFilters : FilterState) :
    Handler Unit := do
  Handler.update (fun s => { s with filters := prevFilters })
  Handler.tryCatch
    (if snap.showAdvancedEnabled && decide (anyLength snap.filters ≠ 0) then do
      Handler.update (fun s => { s with showAdvanced := true })
      let payload := buildPayload snap.filters
      let fetchedResults ← Handler.await (Call.searchWatches payload)
        (env.searchWatches payload)
      showLater fetchedResults
    else do
      Handler.update (fun s => { s with showAdvanced := false })
      if !(truthy snap.filters.reference) then
        pure ()
      else do
        let fetchedResults ← Handler.await (Call.getWatchByReference snap.filters.reference)
          (env.getWatchByReference snap.filters.reference)
        showLater fetchedResults)
    searchCatch

/-! ## Observations on a run -/

/-- The search queries among the calls of a log. -/
def queries (cs : List Call) : List Call := cs.filter Call.isQuery

/-- The history records among the calls of a log. -/
def saves (cs : List Call) : List Call := cs.filter Call.isSave

/-- The backend call rejects in the environment `env`. -/
def Services.rejects (env : Services) : Call → Bool
  | .autocompleteReference v =>
    match env.autocompleteReference v with
    | .error _ => true
    | .ok _ => false
  | .searchWatches p =>
    match env.searchWatches p with
    | .error _ => true
    | .ok _ => false
  | .getWatchByReference r =>
    match env.getWatchByReference r with
    | .error _ => true
    | .ok _ => false
  | _ => false

/-- What the results modal is given: `(showModal, results)`. -/
def SearchState.presentation (s : SearchState) : Bool × List ResultRecord :=
  (s.showModal, s.results)

/-- A payload field is `null` or an integer. -/
def nullOrInteger : Option JSNumber → Bool
  | none => true
  | some n => n.isInteger

/-- A payload field is `null` or a number other than `NaN`. -/
def nullOrNumber : Option JSNumber → Bool
  | none => true
  | some n => !n.isNaN

/-- A payload field is `null`, an integer or an infinity. -/
def nullIntegerOrInfinity : Option JSNumber → Bool
  | none => true
  | some n => n.isInteger || n.isInfinite

/-- The text has a digit where `parseInt` looks for one: after leading white
space and one optional sign comes a decimal digit, or `0x` / `0X` followed by
a hexadecimal digit (a `0x` with no hexadecimal digit behind it has none). -/
def startsWithInteger (s : String) : Bool :=
  match (takeSign (trimStart s.data)).2 with
  | [] => false
  | [c] => isDecimalDigit c
  | c :: d :: rest =>
    if c = '0' ∧ (d = 'x' ∨ d = 'X') then
      match rest with
      | [] => false
      | h :: _ => isRadixDigit 16 h
    else isDecimalDigit c

/-- The text has a decimal literal where `parseFloat` looks for one: after
leading white space and one optional sign comes `Infinity`, a decimal digit,
or a dot followed by a decimal digit. -/
def startsWithDecimal (s : String) : Bool :=
  match (takeSign (trimStart s.data)).2 with
  | [] => false
  | [c] => isDecimalDigit c
  | c :: d :: rest =>
    "Infinity".data.isPrefixOf (c :: d :: rest) || isDecimalDigit c ||
      (decide (c = '.') && isDecimalDigit d)

/-! ## Sample collaborators and states -/

/-- A backend in which every call resolves with a non-empty answer. -/
def okBackend : Services :=
  { autocompleteReference := fun _ => .ok ["126610LN", "126610LV"]
    searchWatches := fun _ => .ok [{ id := 1 }]
    getWatchByReference := fun _ => .ok [{ id := 1 }] }

/-- A backend in which every call resolves with the empty sequence. -/
def emptyBackend : Services :=
  { autocompleteReference := fun _ => .ok []
    searchWatches := fun _ => .ok []
    getWatchByReference := fun _ => .ok [] }

/-- A backend in which every call rejects. -/
def failingBackend : Services :=
  { autocompleteReference := fun _ => .error "Network Error"
    searchWatches := fun _ => .error "Network Error"
    getWatchByReference := fun _ => .error "Network Error" }

/-- Filters with only the reference filled in. -/
def referenceOnly (r : String) : FilterState := { FilterState.initial with reference := r }

/-- Filters with every advanced field filled in. -/
def fullFilters : FilterState :=
  { reference := "126610LN", brand := "Rolex", condition := "New", color := "Black",
    material := "Steel", year := "2021", priceMin := "5000.5", priceMax := "25000" }

/-- Filters whose numeric fields open with white space, a dot and a sign. -/
def signedFilters : FilterState :=
  { fullFilters with year := " 2022", priceMin := ".5", priceMax := "-5" }

/-- The decimal numeral of `10 ^ 309`, a year text of 310 digits. -/
def longYear : String := String.mk ('1' :: List.replicate 309 '0')

/-- A state of a tier `{advanced: a, history: k, autocomplete: c}` showing the
filters `f` with the advanced panel open or closed. -/
def stateOf (a : Bool) (k : Int) (c : Bool) (f : FilterState) (panelOpen : Bool) : SearchState :=
  { SearchState.initial with
    filters := f, showAdvanced := panelOpen, showAdvancedEnabled := a,
    searchHistoryLimit := k, autocompleteEnabled := c }

end Search

namespace Search

/-! ## Basic facts about the primitives -/

theorem truthy_iff (s : String) : truthy s = true ↔ s ≠ "" := by
  cases s with | mk d =>
  cases d <;> simp [truthy, String.ext_iff]

theorem truthy_eq_false_iff (s : String) : truthy s = false ↔ s = "" := by
  cases s with | mk d =>
  cases d <;> simp [truthy, String.ext_iff]

theorem jsLength_eq_zero (s : String) : jsLength s = 0 ↔ s = "" := by
  cases s with | mk d =>
  cases d with
  | nil => simp [jsLength]
  | cons c cs =>
    simp only [jsLength, List.map_cons, List.sum_cons, String.ext_iff]
    constructor
    · intro h; split at h <;> omega
    · intro h; simp at h

theorem lengthOr_eq_zero (a b : Nat) : lengthOr a b = 0 ↔ a = 0 ∧ b = 0 := by
  unfold lengthOr
  split <;> simp_all

theorem anyLength_eq_zero (f : FilterState) :
    anyLength f = 0 ↔
      f.color = "" ∧ f.year = "" ∧ f.condition = "" ∧ f.priceMin = "" ∧
        f.priceMax = "" ∧ f.reference = "" := by
  simp [anyLength, lengthOr_eq_zero, jsLength_eq_zero]

/-! ## Facts about `parseInt` and `parseFloat` -/

theorem signedZero_isInteger (negative : Bool) : (signedZero negative).isInteger = true := by
  cases negative <;> rfl

theorem packDouble_isNaN (negative : Bool) (n : Nat) (u : Int) :
    (packDouble negative n u).isNaN = false := by
  unfold packDouble signedZero
  simp only
  split_ifs <;> rfl

theorem roundToDouble_isNaN (negative : Bool) (num den : Nat) :
    (roundToDouble negative num den).isNaN = false := by
  unfold roundToDouble
  simp only
  split_ifs
  · cases negative <;> rfl
  · exact packDouble_isNaN _ _ _

theorem cancelTwos_mul_pow (s m : Nat) : cancelTwos s (m * 2 ^ s) = (m, 0) := by
  induction s with
  | zero => simp [cancelTwos]
  | succ k ih =>
    have h1 : m * 2 ^ (k + 1) = (m * 2 ^ k) * 2 := by ring
    simp only [cancelTwos]
    rw [h1, Nat.mul_mod_left, if_pos rfl, Nat.mul_div_cancel _ (by decide : 0 < 2)]
    exact ih

theorem roundHalfEven_one (N : Nat) : roundHalfEven N 1 = N := by
  simp [roundHalfEven, Nat.mod_one]

theorem packDouble_integer (negative : Bool) (n : Nat) (u : Int)
    (h : 0 ≤ u ∨ ∃ m, n = m * 2 ^ (-u).toNat) :
    (packDouble negative n u).isInteger = true ∨
      (packDouble negative n u).isInfinite = true := by
  unfold packDouble
  simp only
  split_ifs
  · exact Or.inr rfl
  · exact Or.inl (signedZero_isInteger negative)
  · left
    rcases le_or_lt 0 u with hu | hu
    · have h1 : (-u).toNat = 0 := Int.toNat_eq_zero.2 (by omega)
      simp [h1, cancelTwos, JSNumber.isInteger]
    · rcases h with h | ⟨m, hm⟩
      · omega
      · have h1 : u.toNat = 0 := Int.toNat_eq_zero.2 (by omega)
        simp [h1, hm, cancelTwos_mul_pow, JSNumber.isInteger]

theorem roundToDouble_integer (negative : Bool) (n : Nat) :
    (roundToDouble negative n 1).isInteger = true ∨
      (roundToDouble negative n 1).isInfinite = true := by
  unfold roundToDouble
  simp only
  split_ifs
  · exact Or.inl (signedZero_isInteger negative)
  · apply packDouble_integer
    rcases le_or_lt 0 (max (floorLog2 n 1) (-1022) - 52) with hu | hu
    · exact Or.inl hu
    · right
      have h1 : (max (floorLog2 n 1) (-1022) - 52).toNat = 0 :=
        Int.toNat_eq_zero.2 (by omega)
      exact ⟨n, by rw [h1]; simp [roundHalfEven_one]⟩

theorem parseInt_of_startsWithInteger (s : String) (h : startsWithInteger s = true) :
    ∃ n, parseInt s = roundToDouble (takeSign (trimStart s.data)).1 n 1 := by
  unfold startsWithInteger at h
  unfold parseInt
  simp only
  generalize (takeSign (trimStart s.data)) = sg at h ⊢
  obtain ⟨neg, body⟩ := sg
  simp only at h ⊢
  have key : (List.takeWhile (isRadixDigit (takeRadix body).1) (takeRadix body).2).isEmpty
      = false := by
    cases body with
    | nil => simp at h
    | cons c t =>
      cases t with
      | nil =>
        have hc : isRadixDigit 10 c = true := h
        simp [takeRadix, List.takeWhile_cons, hc]
      | cons d rest =>
        simp only at h
        by_cases hx : c = '0' ∧ (d = 'x' ∨ d = 'X')
        · rw [if_pos hx] at h
          cases rest with
          | nil => simp at h
          | cons k rest2 =>
            simp only at h
            simp [takeRadix, hx, List.takeWhile_cons, h]
        · rw [if_neg hx] at h
          have hc : isRadixDigit 10 c = true := h
          simp [takeRadix, hx, List.takeWhile_cons, hc]
  simp only [key, Bool.false_eq_true, if_false]
  exact ⟨_, rfl⟩

theorem splitDecimal_digit (c : Char) (rest : List Char) (h : isDecimalDigit c = true) :
    (splitDecimal (c :: rest)).1.isEmpty = false := by
  unfold splitDecimal
  simp only
  split_ifs <;> simp [List.takeWhile_cons, h]

theorem splitDecimal_dot (d : Char) (rest : List Char) (h : isDecimalDigit d = true) :
    (splitDecimal ('.' :: d :: rest)).2.1.isEmpty = false := by
  have hnd : isDecimalDigit '.' = false := by decide
  simp [splitDecimal, List.takeWhile_cons, List.dropWhile_cons, hnd, h]

theorem parseFloat_of_startsWithDecimal (s : String) (h : startsWithDecimal s = true) :
    (parseFloat s).isNaN = false := by
  unfold startsWithDecimal at h
  unfold parseFloat
  simp only
  generalize (takeSign (trimStart s.data)) = sg at h ⊢
  obtain ⟨neg, body⟩ := sg
  simp only at h ⊢
  by_cases hinf : List.isPrefixOf "Infinity".data body = true
  · rw [if_pos hinf]
    rfl
  · rw [if_neg hinf]
    have key : ((splitDecimal body).1.isEmpty && (splitDecimal body).2.1.isEmpty) = false := by
      cases body with
      | nil => simp at h
      | cons c t =>
        cases t with
        | nil =>
          have hc : isDecimalDigit c = true := h
          simp [splitDecimal_digit c [] hc]
        | cons d rest =>
          simp only [Bool.or_eq_true, Bool.and_eq_true, decide_eq_true_eq] at h
          rcases h with (h | hc) | ⟨hdot, hd⟩
          · exact absurd h hinf
          · simp [splitDecimal_digit c (d :: rest) hc]
          · subst hdot
            simp [splitDecimal_dot d rest hd]
    rw [if_neg (by simp [key])]
    exact roundToDouble_isNaN _ _ _

/-- The texts accepted by `startsWithInteger` are all the texts on which
`parseInt` is not `NaN`. -/
theorem parseInt_nan_of_not_startsWithInteger (s : String)
    (h : startsWithInteger s = false) : parseInt s = JSNumber.nan := by
  unfold startsWithInteger at h
  unfold parseInt
  simp only
  generalize (takeSign (trimStart s.data)) = sg at h ⊢
  obtain ⟨neg, body⟩ := sg
  simp only at h ⊢
  have key : (List.takeWhile (isRadixDigit (takeRadix body).1) (takeRadix body).2).isEmpty
      = true := by
    cases body with
    | nil => rfl
    | cons c t =>
      cases t with
      | nil =>
        have hc : isRadixDigit 10 c = false := h
        simp [takeRadix, List.takeWhile_cons, hc]
      | cons d rest =>
        simp only at h
        by_cases hx : c = '0' ∧ (d = 'x' ∨ d = 'X')
        · rw [if_pos hx] at h
          cases rest with
          | nil => simp [takeRadix, hx]
          | cons k rest2 =>
            simp only at h
            simp [takeRadix, hx, List.takeWhile_cons, h]
        · rw [if_neg hx] at h
          have hc : isRadixDigit 10 c = false := h
          simp [takeRadix, hx, List.takeWhile_cons, hc]
  simp only [key, if_true]

/-- The texts accepted by `startsWithDecimal` are all the texts on which
`parseFloat` is not `NaN`. -/
theorem parseFloat_nan_of_not_startsWithDecimal (s : String)
    (h : startsWithDecimal s = false) : parseFloat s = JSNumber.nan := by
  unfold startsWithDecimal at h
  unfold parseFloat
  simp only
  generalize (takeSign (trimStart s.data)) = sg at h ⊢
  obtain ⟨neg, body⟩ := sg
  simp only at h ⊢
  have hnd : isDecimalDigit '.' = false := by decide
  cases body with
  | nil => simp [splitDecimal, List.isPrefixOf]
  | cons c t =>
    cases t with
    | nil =>
      have hc : isDecimalDigit c = false := h
      have hI : List.isPrefixOf "Infinity".data [c] = false := by
        have : "Infinity".data = 'I' :: 'n' :: "finity".data := by decide
        rw [this]
        simp [List.isPrefixOf]
      rw [hI]
      by_cases hdot : c = '.'
      · subst hdot
        simp [splitDecimal, List.takeWhile_cons, List.dropWhile_cons, hnd]
      · simp [splitDecimal, List.takeWhile_cons, List.dropWhile_cons, hc, hdot]
    | cons d rest =>
      simp only [Bool.or_eq_false_iff, Bool.and_eq_false_imp, decide_eq_true_eq] at h
      obtain ⟨⟨hI, hc⟩, hd⟩ := h
      rw [hI]
      by_cases hdot : c = '.'
      · have hd2 := hd hdot
        subst hdot
        simp [splitDecimal, List.takeWhile_cons, List.dropWhile_cons, hd2, hnd]
      · simp [splitDecimal, List.takeWhile_cons, List.dropWhile_cons, hc, hdot]

theorem searchWatches_mem_handleSearch (env : Services) (snap : SearchState) (p : Payload)
    (h : Call.searchWatches p ∈ ((handleSearch env snap).run snap).2.calls) :
    p = buildPayload snap.filters := by
  revert h
  cases hv : snap.filters.values.any truthy <;>
  cases he : snap.showAdvancedEnabled <;>
  cases ha : snap.showAdvanced <;>
  cases ht : truthy snap.filters.reference <;>
  cases hs : env.searchWatches (buildPayload snap.filters) <;>
  cases hr : env.getWatchByReference snap.filters.reference <;>
  by_cases hl : 0 < snap.searchHistoryLimit <;>
  simp [handleSearch, bind, pure, hv, he, ha, ht, hs, hr, hl]

theorem searchWatches_mem_handleRepeatSearch (env : Services) (snap : SearchState)
    (prevFilters : FilterState) (p : Payload)
    (h : Call.searchWatches p ∈ ((handleRepeatSearch env snap prevFilters).run snap).2.calls) :
    p = buildPayload snap.filters := by
  revert h
  cases he : snap.showAdvancedEnabled <;>
  by_cases hz : anyLength snap.filters = 0 <;>
  cases ht : truthy snap.filters.reference <;>
  cases hs : env.searchWatches (buildPayload snap.filters) <;>
  cases hr : env.getWatchByReference snap.filters.reference <;>
  simp [handleRepeatSearch, bind, pure, he, hz, ht, hs, hr]

/-! ## C1 -/

/-- C1: with `showAdvancedEnabled` false, whatever the filters, the panel
toggle and the backend do, every search query sent by `handleSearch` and by
`handleRepeatSearch` is `getWatchByReference` on the reference string; in
particular `searchWatches` is never called. -/
theorem advanced_disabled_only_reference_query (env : Services) (snap : SearchState)
    (prevFilters : FilterState) (h : snap.showAdvancedEnabled = false) :
    (∀ c ∈ ((handleSearch env snap).run snap).2.calls, c.isQuery = true →
        c = Call.getWatchByReference snap.filters.reference) ∧
    (∀ c ∈ ((handleRepeatSearch env snap prevFilters).run snap).2.calls, c.isQuery = true →
        c = Call.getWatchByReference snap.filters.reference) := by
  constructor
  · cases hr : env.getWatchByReference snap.filters.reference <;>
    cases hv : snap.filters.values.any truthy <;>
    cases ht : truthy snap.filters.reference <;>
    by_cases hl : 0 < snap.searchHistoryLimit <;>
    simp [handleSearch, bind, pure, Call.isQuery, h, hr, hv, ht, hl]
  · cases hr : env.getWatchByReference snap.filters.reference <;>
    cases ht : truthy snap.filters.reference <;>
    simp [handleRepeatSearch, bind, pure, Call.isQuery, h, hr, ht]

/-- C1 at a state with every advanced field filled in and the panel open. -/
theorem advanced_disabled_only_reference_query_witness :
    (stateOf false 2 false fullFilters true).showAdvancedEnabled = false ∧
    (∀ c ∈ ((handleSearch okBackend (stateOf false 2 false fullFilters true)).run
        (stateOf false 2 false fullFilters true)).2.calls, c.isQuery = true →
        c = Call.getWatchByReference "126610LN") ∧
    (∀ c ∈ ((handleRepeatSearch okBackend (stateOf false 2 false fullFilters true)
        fullFilters).run (stateOf false 2 false fullFilters true)).2.calls,
        c.isQuery = true → c = Call.getWatchByReference "126610LN") :=
  ⟨rfl, advanced_disabled_only_reference_query okBackend
    (stateOf false 2 false fullFilters true) fullFilters rfl⟩

/-! ## C2 -/

/-- C2, refuted: with advanced search enabled and the panel closed, the live
submit of the filters `{reference: "126610LN"}` sends the basic query, and the
replay of the same filters on the state that submit leaves behind sends the
advanced one. -/
theorem replay_selects_other_mode :
    queries ((handleSearch okBackend (stateOf true 2 false (referenceOnly "126610LN") false)).run
        (stateOf true 2 false (referenceOnly "126610LN") false)).2.calls
      = [Call.getWatchByReference "126610LN"] ∧
    ((handleSearch okBackend (stateOf true 2 false (referenceOnly "126610LN") false)).run
        (stateOf true 2 false (referenceOnly "126610LN") false)).2.state.filters
      = referenceOnly "126610LN" ∧
    queries ((handleRepeatSearch okBackend
        ((handleSearch okBackend (stateOf true 2 false (referenceOnly "126610LN") false)).run
          (stateOf true 2 false (referenceOnly "126610LN") false)).2.state
        (referenceOnly "126610LN")).run
        ((handleSearch okBackend (stateOf true 2 false (referenceOnly "126610LN") false)).run
          (stateOf true 2 false (referenceOnly "126610LN") false)).2.state).2.calls
      = [Call.searchWatches
          { referenceCode := "126610LN", colorDial := "", year := none, condition := "",
            minPrice := none, maxPrice := none }] := by
  decide

/-- C2, amended: when the filters on screen are the replayed ones, the replay
sends exactly the queries the live submit of those filters sends, provided
advanced search is disabled or the panel toggle at submit time agrees with
"one of color, year, condition, priceMin, priceMax, reference is non-empty". -/
theorem replay_same_queries_when_toggle_agrees (env : Services) (live cur : SearchState)
    (hf : cur.filters = live.filters)
    (hc : cur.showAdvancedEnabled = live.showAdvancedEnabled)
    (hm : live.showAdvancedEnabled = false ∨
      live.showAdvanced = decide (anyLength live.filters ≠ 0)) :
    queries ((handleRepeatSearch env cur live.filters).run cur).2.calls =
      queries ((handleSearch env live).run live).2.calls := by
  have hval : anyLength live.filters ≠ 0 → live.filters.values.any truthy = true := by
    intro hne
    by_contra hno
    apply hne
    rw [anyLength_eq_zero]
    simp only [FilterState.values, List.any_cons, List.any_nil, Bool.or_false, Bool.or_eq_true,
      not_or, Bool.not_eq_true, truthy_eq_false_iff] at hno
    tauto
  have href : anyLength live.filters = 0 → truthy live.filters.reference = false := by
    intro h0
    rw [anyLength_eq_zero] at h0
    rw [truthy_eq_false_iff]
    exact h0.2.2.2.2.2
  have hany : truthy live.filters.reference = true → live.filters.values.any truthy = true := by
    intro h; simp [FilterState.values, h]
  rcases hm with hm | hm
  · cases ht : truthy live.filters.reference
    · cases hv : live.filters.values.any truthy <;>
      simp [handleRepeatSearch, handleSearch, bind, pure, queries, Call.isQuery, hf, hc,
        hm, ht, hv]
    · have hv := hany ht
      cases hr : env.getWatchByReference live.filters.reference <;>
      by_cases hl : 0 < live.searchHistoryLimit <;>
      simp [handleRepeatSearch, handleSearch, bind, pure, queries, Call.isQuery, hf, hc,
        hm, ht, hv, hr, hl]
  · by_cases hz : anyLength live.filters = 0
    · have h1 := href hz
      cases hv : live.filters.values.any truthy <;>
      simp [handleRepeatSearch, handleSearch, bind, pure, queries, Call.isQuery, hf, hc,
        hm, hz, h1, hv]
    · have h1 := hval hz
      cases hs : env.searchWatches (buildPayload live.filters) <;>
      cases hr : env.getWatchByReference live.filters.reference <;>
      cases he : live.showAdvancedEnabled <;>
      cases ht : truthy live.filters.reference <;>
      by_cases hl : 0 < live.searchHistoryLimit <;>
      simp [handleRepeatSearch, handleSearch, bind, pure, queries, Call.isQuery, hf, hc,
        hm, hz, h1, hs, hr, he, ht, hl]

/-- C2, amended, at the full filter set with the panel open. -/
theorem replay_same_queries_when_toggle_agrees_witness :
    (stateOf true 2 false fullFilters false).filters = (stateOf true 2 false fullFilters true).filters ∧
    queries ((handleRepeatSearch okBackend (stateOf true 2 false fullFilters false)
        fullFilters).run (stateOf true 2 false fullFilters false)).2.calls =
      queries ((handleSearch okBackend (stateOf true 2 false fullFilters true)).run
        (stateOf true 2 false fullFilters true)).2.calls :=
  ⟨rfl, replay_same_queries_when_toggle_agrees okBackend (stateOf true 2 false fullFilters true)
    (stateOf true 2 false fullFilters false) rfl rfl (Or.inr (by decide))⟩

/-! ## C3 -/

/-- C3, evaluated on the code: with `{reference: "116500LN"}` on screen, the
replay of the stored filters `{reference: "126610LN", color: "Black"}` under an
advanced tier restores the stored filters into the state but sends a query
built from the filters on screen; with empty filters on screen it sends
nothing at all. -/
theorem replay_reads_filters_on_screen :
    ((handleRepeatSearch okBackend (stateOf true 2 false (referenceOnly "116500LN") false)
        { referenceOnly "126610LN" with color := "Black" }).run
        (stateOf true 2 false (referenceOnly "116500LN") false)).2.state.filters
      = { referenceOnly "126610LN" with color := "Black" } ∧
    queries ((handleRepeatSearch okBackend (stateOf true 2 false (referenceOnly "116500LN") false)
        { referenceOnly "126610LN" with color := "Black" }).run
        (stateOf true 2 false (referenceOnly "116500LN") false)).2.calls
      = [Call.searchWatches
          { referenceCode := "116500LN", colorDial := "", year := none, condition := "",
            minPrice := none, maxPrice := none }] ∧
    queries ((handleRepeatSearch okBackend (stateOf true 2 false FilterState.initial false)
        { referenceOnly "126610LN" with color := "Black" }).run
        (stateOf true 2 false FilterState.initial false)).2.calls = [] := by
  decide

/-! ## C4 -/

/-- C4, refuted: under an advanced tier with history limit 2 and the panel
open, the year `".5"` (a value the number input delivers) is sent as `NaN` by
the submit and by the replay, and the 310-digit year `10^309` is sent as
`Infinity`; neither is `null` or an integer. -/
theorem year_sent_as_nan_or_infinity :
    queries ((handleSearch okBackend
        (stateOf true 2 false { FilterState.initial with year := ".5" } true)).run
        (stateOf true 2 false { FilterState.initial with year := ".5" } true)).2.calls
      = [Call.searchWatches
          { referenceCode := "", colorDial := "", year := some JSNumber.nan, condition := "",
            minPrice := none, maxPrice := none }] ∧
    queries ((handleRepeatSearch okBackend
        (stateOf true 2 false { FilterState.initial with year := ".5" } true)
        { FilterState.initial with year := ".5" }).run
        (stateOf true 2 false { FilterState.initial with year := ".5" } true)).2.calls
      = [Call.searchWatches
          { referenceCode := "", colorDial := "", year := some JSNumber.nan, condition := "",
            minPrice := none, maxPrice := none }] ∧
    queries ((handleSearch okBackend
        (stateOf true 2 false { FilterState.initial with year := longYear } true)).run
        (stateOf true 2 false { FilterState.initial with year := longYear } true)).2.calls
      = [Call.searchWatches
          { referenceCode := "", colorDial := "", year := some (JSNumber.infinity false),
            condition := "", minPrice := none, maxPrice := none }] ∧
    nullOrInteger (some JSNumber.nan) = false ∧
    nullOrInteger (some (JSNumber.infinity false)) = false := by
  decide!

/-- C4, amended: when the year is empty or has a digit where `parseInt` looks
for one, and each price is empty or has a decimal literal where `parseFloat`
looks for one, every payload that `handleSearch` or `handleRepeatSearch` sends
has a `year` that is `null`, an integer or an infinity, and prices that are
`null` or numbers, none of them `NaN`; an empty field gives `null`, the year
`"2022"` gives the integer 2022 and the price `"5000.5"` gives 5000.5. -/
theorem payload_numeric_coercion (env : Services) (snap : SearchState)
    (prevFilters : FilterState) (p : Payload)
    (hy : snap.filters.year = "" ∨ startsWithInteger snap.filters.year = true)
    (hmin : snap.filters.priceMin = "" ∨ startsWithDecimal snap.filters.priceMin = true)
    (hmax : snap.filters.priceMax = "" ∨ startsWithDecimal snap.filters.priceMax = true)
    (hp : Call.searchWatches p ∈ ((handleSearch env snap).run snap).2.calls ∨
      Call.searchWatches p ∈ ((handleRepeatSearch env snap prevFilters).run snap).2.calls) :
    nullIntegerOrInfinity p.year = true ∧ p.year ≠ some JSNumber.nan ∧
    nullOrNumber p.minPrice = true ∧ nullOrNumber p.maxPrice = true ∧
    (snap.filters.year = "" → p.year = none) ∧
    (snap.filters.year = "2022" → p.year = some (JSNumber.finite 2022 0)) ∧
    (snap.filters.priceMin = "" → p.minPrice = none) ∧
    (snap.filters.priceMin = "5000.5" → p.minPrice = some (JSNumber.finite 10001 (-1))) ∧
    (snap.filters.priceMax = "" → p.maxPrice = none) := by
  have hpe : p = buildPayload snap.filters := by
    rcases hp with hp | hp
    · exact searchWatches_mem_handleSearch env snap p hp
    · exact searchWatches_mem_handleRepeatSearch env snap prevFilters p hp
  subst hpe
  have hyear : nullIntegerOrInfinity (buildPayload snap.filters).year = true ∧
      (buildPayload snap.filters).year ≠ some JSNumber.nan := by
    rcases hy with hy | hy
    · simp [buildPayload, hy, truthy, nullIntegerOrInfinity]
    · by_cases ht : truthy snap.filters.year = true
      · obtain ⟨n, hn⟩ := parseInt_of_startsWithInteger _ hy
        have hnan := roundToDouble_isNaN (takeSign (trimStart snap.filters.year.data)).1 n 1
        have hint := roundToDouble_integer (takeSign (trimStart snap.filters.year.data)).1 n
        rw [← hn] at hnan hint
        refine ⟨?_, ?_⟩
        · simpa [buildPayload, ht, nullIntegerOrInfinity] using hint
        · intro hc
          simp only [buildPayload, ht, if_true, Option.some.injEq] at hc
          rw [hc] at hnan
          cases hnan
      · simp [buildPayload, ht, nullIntegerOrInfinity]
  have hprice : ∀ s : String, (s = "" ∨ startsWithDecimal s = true) →
      nullOrNumber (if truthy s = true then some (parseFloat s) else none) = true := by
    intro s hs
    rcases hs with hs | hs
    · simp [hs, truthy, nullOrNumber]
    · have hnan := parseFloat_of_startsWithDecimal s hs
      by_cases ht : truthy s = true
      · simp [ht, hnan, nullOrNumber]
      · simp [ht, nullOrNumber]
  refine ⟨hyear.1, hyear.2, hprice _ hmin, hprice _ hmax, ?_, ?_, ?_, ?_, ?_⟩
  · intro h; simp [buildPayload, h, truthy]
  · intro h
    show (if truthy snap.filters.year = true then some (parseInt snap.filters.year) else none)
      = some (JSNumber.finite 2022 0)
    rw [h]
    decide!
  · intro h; simp [buildPayload, h, truthy]
  · intro h
    show (if truthy snap.filters.priceMin = true then some (parseFloat snap.filters.priceMin)
      else none) = some (JSNumber.finite 10001 (-1))
    rw [h]
    decide!
  · intro h; simp [buildPayload, h, truthy]

/-- C4, amended, at an advanced submit with the year `" 2022"`, the minimum
price `".5"` and the maximum price `"-5"`. -/
theorem payload_numeric_coercion_witness :
    startsWithInteger signedFilters.year = true ∧
    startsWithDecimal signedFilters.priceMin = true ∧
    startsWithDecimal signedFilters.priceMax = true ∧
    nullIntegerOrInfinity (buildPayload signedFilters).year = true ∧
    nullOrNumber (buildPayload signedFilters).minPrice = true ∧
    nullOrNumber (buildPayload signedFilters).maxPrice = true :=
  ⟨by decide, by decide, by decide,
    (payload_numeric_coercion okBackend (stateOf true 2 false signedFilters true) fullFilters
      (buildPayload signedFilters) (Or.inr (by decide)) (Or.inr (by decide))
      (Or.inr (by decide)) (Or.inl (by decide!))).1,
    (payload_numeric_coercion okBackend (stateOf true 2 false signedFilters true) fullFilters
      (buildPayload signedFilters) (Or.inr (by decide)) (Or.inr (by decide))
      (Or.inr (by decide)) (Or.inl (by decide!))).2.2.1,
    (payload_numeric_coercion okBackend (stateOf true 2 false signedFilters true) fullFilters
      (buildPayload signedFilters) (Or.inr (by decide)) (Or.inr (by decide))
      (Or.inr (by decide)) (Or.inl (by decide!))).2.2.2.1⟩

/-! ## C5 -/

/-- C5: a submit with every filter empty, or with an empty reference in basic
mode (advanced search disabled or the panel closed), completes without a
query, without a history record and without a timer, and leaves the whole
state (so `results`, `showModal`, `filters` and `historyRefreshToggle`) as it
was. -/
theorem handleSearch_validation_noop (env : Services) (snap : SearchState)
    (h : snap.filters = FilterState.initial ∨
      (snap.filters.reference = "" ∧
        (snap.showAdvancedEnabled = false ∨ snap.showAdvanced = false))) :
    ((handleSearch env snap).run snap).1 = Except.ok () ∧
    queries ((handleSearch env snap).run snap).2.calls = [] ∧
    saves ((handleSearch env snap).run snap).2.calls = [] ∧
    ((handleSearch env snap).run snap).2.timers = [] ∧
    ((handleSearch env snap).run snap).2.state = snap := by
  rcases h with h | ⟨href, hmode⟩
  · have hv : snap.filters.values.any truthy = false := by rw [h]; decide
    simp [handleSearch, bind, pure, queries, saves, Call.isQuery, Call.isSave, hv]
  · have ht : truthy snap.filters.reference = false := (truthy_eq_false_iff _).2 href
    have hadv : (snap.showAdvancedEnabled && snap.showAdvanced) = false := by
      rcases hmode with hm | hm <;> simp [hm]
    cases hv : snap.filters.values.any truthy <;>
    simp [handleSearch, bind, pure, queries, saves, Call.isQuery, Call.isSave, hv, ht, hadv]

/-- C5 at a basic-mode state whose advanced fields are filled in but whose
reference is empty. -/
theorem handleSearch_validation_noop_witness :
    ({ fullFilters with reference := "" } : FilterState).reference = "" ∧
    queries ((handleSearch okBackend
        (stateOf false 2 true { fullFilters with reference := "" } true)).run
        (stateOf false 2 true { fullFilters with reference := "" } true)).2.calls = [] ∧
    ((handleSearch okBackend
        (stateOf false 2 true { fullFilters with reference := "" } true)).run
        (stateOf false 2 true { fullFilters with reference := "" } true)).2.state
      = stateOf false 2 true { fullFilters with reference := "" } true :=
  ⟨rfl,
    (handleSearch_validation_noop okBackend
      (stateOf false 2 true { fullFilters with reference := "" } true)
      (Or.inr ⟨rfl, Or.inl rfl⟩)).2.1,
    (handleSearch_validation_noop okBackend
      (stateOf false 2 true { fullFilters with reference := "" } true)
      (Or.inr ⟨rfl, Or.inl rfl⟩)).2.2.2.2⟩

/-! ## C6 -/

/-- C6, refuted: once the tier `{advancedSearch: true, searchHistoryLimit: 5,
autocompleteReference: true}` has been resolved, a render in which the tier
list is undefined leaves the capability cells at `(true, 5, true)`. -/
theorem capabilities_survive_absent_tier :
    userTier none (some { planId := some 1 }) = none ∧
    (tierEffect (userTier none (some { planId := some 1 }))
      (tierEffect
        (userTier
          (some [{ id := 1, advancedSearch := some true, searchHistoryLimit := some 5,
                   autocompleteReference := some true }])
          (some { planId := some 1 }))
        SearchState.initial)).capabilities = (true, 5, true) := by
  decide

/-- C6, amended: when no tier is found (the tier list or the user is
undefined, or no tier has the user's plan id) the effect leaves the state as
it was, so that the capability cells are `(false, 0, false)` when they start
from the initial state; when a tier is found each capability cell is the
tier's value, or `false` / `0` when the tier does not set it. -/
theorem capability_resolution (tiers : Option (List Tier)) (user : Option User)
    (s : SearchState) :
    ((tiers = none ∨ user = none ∨
        ∀ ts, tiers = some ts → ∀ t ∈ ts, some t.id ≠ user.bind (fun u => u.planId)) →
      userTier tiers user = none) ∧
    (userTier tiers user = none → tierEffect (userTier tiers user) s = s) ∧
    (userTier tiers user = none →
      (tierEffect (userTier tiers user) SearchState.initial).capabilities = (false, 0, false)) ∧
    (∀ t, userTier tiers user = some t →
      (tierEffect (userTier tiers user) s).capabilities =
        (t.advancedSearch.getD false, t.searchHistoryLimit.getD 0,
          t.autocompleteReference.getD false)) := by
  refine ⟨?_, ?_, ?_, ?_⟩
  · intro h
    cases tiers with
    | none => rfl
    | some ts =>
      simp only [userTier, List.find?_eq_none, decide_eq_true_eq]
      rcases h with h | h | h
      · cases h
      · subst h
        intro t _ ht
        simp at ht
      · exact fun t ht => h ts rfl t ht
  · intro h; rw [h]; rfl
  · intro h; rw [h]; rfl
  · intro t h
    rw [h]
    simp only [tierEffect, SearchState.capabilities, jsOr, Bool.or_false]
    split <;> simp_all

/-- C6, amended, at a user whose plan is in the tier list and at one whose
plan is not. -/
theorem capability_resolution_witness :
    (tierEffect
      (userTier (some [{ id := 1, advancedSearch := some true, searchHistoryLimit := none,
                         autocompleteReference := some true }])
        (some { planId := some 1 }))
      SearchState.initial).capabilities = (true, 0, true) ∧
    (tierEffect
      (userTier (some [{ id := 1, advancedSearch := some true, searchHistoryLimit := none,
                         autocompleteReference := some true }])
        (some { planId := some 2 }))
      SearchState.initial).capabilities = (false, 0, false) :=
  ⟨(capability_resolution
      (some [{ id := 1, advancedSearch := some true, searchHistoryLimit := none,
               autocompleteReference := some true }])
      (some { planId := some 1 }) SearchState.initial).2.2.2
      { id := 1, advancedSearch := some true, searchHistoryLimit := none,
        autocompleteReference := some true } (by decide),
   (capability_resolution
      (some [{ id := 1, advancedSearch := some true, searchHistoryLimit := none,
               autocompleteReference := some true }])
      (some { planId := some 2 }) SearchState.initial).2.2.1 (by decide)⟩

/-! ## C7 -/

/-- C7: when the query sent by `handleSearch` or by `handleRepeatSearch`
rejects, the handler completes normally and leaves `showModal = true` and
`results = []`, which is also the presentation state reached, once the timer
has fired, by the same call against a backend that answers with the empty
sequence. -/
theorem search_failure_shows_empty_results (env : Services) (snap : SearchState)
    (prevFilters : FilterState) :
    ((∃ c ∈ ((handleSearch env snap).run snap).2.calls, env.rejects c = true) →
      ((handleSearch env snap).run snap).1 = Except.ok () ∧
      ((handleSearch env snap).run snap).2.settled.presentation = (true, []) ∧
      ((handleSearch emptyBackend snap).run snap).2.settled.presentation = (true, [])) ∧
    ((∃ c ∈ ((handleRepeatSearch env snap prevFilters).run snap).2.calls,
        env.rejects c = true) →
      ((handleRepeatSearch env snap prevFilters).run snap).1 = Except.ok () ∧
      ((handleRepeatSearch env snap prevFilters).run snap).2.settled.presentation = (true, []) ∧
      ((handleRepeatSearch emptyBackend snap prevFilters).run snap).2.settled.presentation
        = (true, [])) := by
  constructor
  · cases hv : snap.filters.values.any truthy <;>
    cases hadv : (snap.showAdvancedEnabled && snap.showAdvanced) <;>
    cases ht : truthy snap.filters.reference <;>
    cases hs : env.searchWatches (buildPayload snap.filters) <;>
    cases hr : env.getWatchByReference snap.filters.reference <;>
    by_cases hl : 0 < snap.searchHistoryLimit <;>
    simp [handleSearch, bind, pure, Services.rejects, World.settled, Timer.fire,
      SearchState.presentation, emptyBackend, hv, hadv, ht, hs, hr, hl]
  · cases he : snap.showAdvancedEnabled <;>
    by_cases hz : anyLength snap.filters = 0 <;>
    cases ht : truthy snap.filters.reference <;>
    cases hs : env.searchWatches (buildPayload snap.filters) <;>
    cases hr : env.getWatchByReference snap.filters.reference <;>
    simp [handleRepeatSearch, bind, pure, Services.rejects, World.settled, Timer.fire,
      SearchState.presentation, emptyBackend, he, hz, ht, hs, hr]

/-- C7 at a basic submit and at a replay against a backend that rejects. -/
theorem search_failure_shows_empty_results_witness :
    ((handleSearch failingBackend (stateOf true 2 false (referenceOnly "126610LN") false)).run
        (stateOf true 2 false (referenceOnly "126610LN") false)).2.settled.presentation
      = (true, []) ∧
    ((handleRepeatSearch failingBackend (stateOf true 2 false fullFilters false)
        fullFilters).run (stateOf true 2 false fullFilters false)).2.settled.presentation
      = (true, []) :=
  ⟨((search_failure_shows_empty_results failingBackend
      (stateOf true 2 false (referenceOnly "126610LN") false) fullFilters).1
      ⟨Call.getWatchByReference "126610LN", by decide, by decide⟩).2.1,
   ((search_failure_shows_empty_results failingBackend
      (stateOf true 2 false fullFilters false) fullFilters).2
      ⟨Call.searchWatches (buildPayload fullFilters), by decide!, by decide⟩).2.1⟩

/-! ## C8 -/

/-- C8, refuted: under a tier with history limit 2 a basic submit whose query
rejects sends the query and records nothing. -/
theorem rejected_submit_not_recorded :
    queries ((handleSearch failingBackend
        (stateOf false 2 false (referenceOnly "126610LN") false)).run
        (stateOf false 2 false (referenceOnly "126610LN") false)).2.calls
      = [Call.getWatchByReference "126610LN"] ∧
    (0 : Int) < (stateOf false 2 false (referenceOnly "126610LN") false).searchHistoryLimit ∧
    saves ((handleSearch failingBackend
        (stateOf false 2 false (referenceOnly "126610LN") false)).run
        (stateOf false 2 false (referenceOnly "126610LN") false)).2.calls = [] ∧
    ((handleSearch failingBackend
        (stateOf false 2 false (referenceOnly "126610LN") false)).run
        (stateOf false 2 false (referenceOnly "126610LN") false)).2.state.historyRefreshToggle
      = false := by
  decide

/-- C8, amended: a submit through `handleSearch` whose query resolves calls
`saveSearchToHistory` once, with the current filters and the limit, and flips
the refresh toggle when `searchHistoryLimit > 0`, and does neither when the
limit is not positive; a submit whose query rejects records nothing;
`handleRepeatSearch` never calls `saveSearchToHistory`. -/
theorem history_recorded_after_resolved_query (env : Services) (snap : SearchState)
    (prevFilters : FilterState) :
    ((∃ c ∈ ((handleSearch env snap).run snap).2.calls,
        c.isQuery = true ∧ env.rejects c = false) →
      (0 < snap.searchHistoryLimit →
        saves ((handleSearch env snap).run snap).2.calls
          = [Call.saveSearchToHistory snap.filters snap.searchHistoryLimit] ∧
        ((handleSearch env snap).run snap).2.state.historyRefreshToggle
          = !snap.historyRefreshToggle) ∧
      (¬ 0 < snap.searchHistoryLimit →
        saves ((handleSearch env snap).run snap).2.calls = [] ∧
        ((handleSearch env snap).run snap).2.state.historyRefreshToggle
          = snap.historyRefreshToggle)) ∧
    ((∃ c ∈ ((handleSearch env snap).run snap).2.calls, env.rejects c = true) →
      saves ((handleSearch env snap).run snap).2.calls = [] ∧
      ((handleSearch env snap).run snap).2.state.historyRefreshToggle
        = snap.historyRefreshToggle) ∧
    saves ((handleRepeatSearch env snap prevFilters).run snap).2.calls = [] := by
  refine ⟨?_, ?_, ?_⟩
  · cases hv : snap.filters.values.any truthy <;>
    cases hadv : (snap.showAdvancedEnabled && snap.showAdvanced) <;>
    cases ht : truthy snap.filters.reference <;>
    cases hs : env.searchWatches (buildPayload snap.filters) <;>
    cases hr : env.getWatchByReference snap.filters.reference <;>
    by_cases hl : 0 < snap.searchHistoryLimit <;>
    simp [handleSearch, bind, pure, Services.rejects, saves, Call.isQuery, Call.isSave,
      hv, hadv, ht, hs, hr, hl]
  · cases hv : snap.filters.values.any truthy <;>
    cases hadv : (snap.showAdvancedEnabled && snap.showAdvanced) <;>
    cases ht : truthy snap.filters.reference <;>
    cases hs : env.searchWatches (buildPayload snap.filters) <;>
    cases hr : env.getWatchByReference snap.filters.reference <;>
    by_cases hl : 0 < snap.searchHistoryLimit <;>
    simp [handleSearch, bind, pure, Services.rejects, saves, Call.isQuery, Call.isSave,
      hv, hadv, ht, hs, hr, hl]
  · cases he : snap.showAdvancedEnabled <;>
    by_cases hz : anyLength snap.filters = 0 <;>
    cases ht : truthy snap.filters.reference <;>
    cases hs : env.searchWatches (buildPayload snap.filters) <;>
    cases hr : env.getWatchByReference snap.filters.reference <;>
    simp [handleRepeatSearch, bind, pure, saves, Call.isSave, he, hz, ht, hs, hr]

/-- C8, amended, at a basic submit under history limit 2 that resolves. -/
theorem history_recorded_after_resolved_query_witness :
    saves ((handleSearch okBackend (stateOf false 2 false (referenceOnly "126610LN") false)).run
        (stateOf false 2 false (referenceOnly "126610LN") false)).2.calls
      = [Call.saveSearchToHistory (referenceOnly "126610LN") 2] ∧
    ((handleSearch okBackend (stateOf false 2 false (referenceOnly "126610LN") false)).run
        (stateOf false 2 false (referenceOnly "126610LN") false)).2.state.historyRefreshToggle
      = true :=
  ((history_recorded_after_resolved_query okBackend
    (stateOf false 2 false (referenceOnly "126610LN") false) fullFilters).1
    ⟨Call.getWatchByReference "126610LN", by decide, by decide, by decide⟩).1 (by decide)

/-! ## C9 -/

/-- C9: on an update of the reference field with the value `v`,
`autocompleteReference` is called only with `v` and only when
`autocompleteEnabled` is true and `v.length >= 3`; when autocomplete is
disabled or `v` is shorter, no request is made and `referenceSuggestions`
becomes empty; when the request is made and rejects, `referenceSuggestions`
becomes empty as well, and in every case the handler completes normally. -/
theorem handleChange_autocomplete_gating (env : Services) (snap : SearchState) (v : String) :
    (∀ c ∈ ((handleChange env snap FieldName.reference v).run snap).2.calls,
      c.isAutocomplete = true →
        snap.autocompleteEnabled = true ∧ 3 ≤ jsLength v ∧ c = Call.autocompleteReference v) ∧
    ((snap.autocompleteEnabled = false ∨ jsLength v < 3) →
      ((handleChange env snap FieldName.reference v).run snap).2.calls = [] ∧
      ((handleChange env snap FieldName.reference v).run snap).2.state.referenceSuggestions
        = []) ∧
    ((∃ c ∈ ((handleChange env snap FieldName.reference v).run snap).2.calls,
        env.rejects c = true) →
      ((handleChange env snap FieldName.reference v).run snap).2.state.referenceSuggestions
        = []) ∧
    ((handleChange env snap FieldName.reference v).run snap).1 = Except.ok () := by
  cases he : snap.autocompleteEnabled <;>
  by_cases hlen : 3 ≤ jsLength v <;>
  cases ha : env.autocompleteReference v <;>
  simp [handleChange, bind, pure, Services.rejects, Call.isAutocomplete, he, hlen, ha]

/-- C9 at a two-character reference under an autocomplete tier, and at a
request that rejects. -/
theorem handleChange_autocomplete_gating_witness :
    (((handleChange okBackend (stateOf false 0 true FilterState.initial false)
        FieldName.reference "12").run
        (stateOf false 0 true FilterState.initial false)).2.calls = [] ∧
      ((handleChange okBackend (stateOf false 0 true FilterState.initial false)
        FieldName.reference "12").run
        (stateOf false 0 true FilterState.initial false)).2.state.referenceSuggestions = []) ∧
    ((handleChange failingBackend (stateOf false 0 true FilterState.initial false)
        FieldName.reference "1266").run
        (stateOf false 0 true FilterState.initial false)).2.state.referenceSuggestions = [] :=
  ⟨(handleChange_autocomplete_gating okBackend (stateOf false 0 true FilterState.initial false)
      "12").2.1 (Or.inr (by decide)),
   (handleChange_autocomplete_gating failingBackend
      (stateOf false 0 true FilterState.initial false) "1266").2.2.1
      ⟨Call.autocompleteReference "1266", by decide, by decide⟩⟩

/-! ## C10 -/

/-- C10: on a submit with at least one non-empty filter, `handleSearch` calls
`searchWatches` if and only if `showAdvancedEnabled` and `showAdvanced` are
both true; the one query it then sends carries the payload `{referenceCode:
reference, colorDial: color, year, condition, minPrice, maxPrice}` built from
the filters, whether or not the reference is empty. -/
theorem handleSearch_mode_and_payload (env : Services) (snap : SearchState)
    (h : ∃ v ∈ snap.filters.values, v ≠ "") :
    ((∃ p, Call.searchWatches p ∈ ((handleSearch env snap).run snap).2.calls) ↔
      (snap.showAdvancedEnabled = true ∧ snap.showAdvanced = true)) ∧
    ((snap.showAdvancedEnabled = true ∧ snap.showAdvanced = true) →
      queries ((handleSearch env snap).run snap).2.calls =
        [Call.searchWatches
          { referenceCode := snap.filters.reference
            colorDial := snap.filters.color
            year := if snap.filters.year = "" then none else some (parseInt snap.filters.year)
            condition := snap.filters.condition
            minPrice :=
              if snap.filters.priceMin = "" then none
              else some (parseFloat snap.filters.priceMin)
            maxPrice :=
              if snap.filters.priceMax = "" then none
              else some (parseFloat snap.filters.priceMax) }]) := by
  have hv : snap.filters.values.any truthy = true := by
    obtain ⟨v, hmem, hne⟩ := h
    exact List.any_eq_true.2 ⟨v, hmem, (truthy_iff v).2 hne⟩
  have hpay : buildPayload snap.filters =
      { referenceCode := snap.filters.reference
        colorDial := snap.filters.color
        year := if snap.filters.year = "" then none else some (parseInt snap.filters.year)
        condition := snap.filters.condition
        minPrice :=
          if snap.filters.priceMin = "" then none else some (parseFloat snap.filters.priceMin)
        maxPrice :=
          if snap.filters.priceMax = "" then none
          else some (parseFloat snap.filters.priceMax) } := by
    unfold buildPayload
    congr 1 <;>
    · split <;> rename_i ht
      · rw [if_neg ((truthy_iff _).1 ht)]
      · rw [if_pos ((truthy_eq_false_iff _).1 (by simpa using ht))]
  rw [← hpay]
  cases he : snap.showAdvancedEnabled <;>
  cases ha : snap.showAdvanced <;>
  cases ht : truthy snap.filters.reference <;>
  cases hs : env.searchWatches (buildPayload snap.filters) <;>
  cases hr : env.getWatchByReference snap.filters.reference <;>
  by_cases hl : 0 < snap.searchHistoryLimit <;>
  simp [handleSearch, bind, pure, queries, Call.isQuery, hv, he, ha, ht, hs, hr, hl]

/-- C10 at the scenario of the specification: tier `{advanced: true, history:
0, autocomplete: true}`, panel open, color `"Black"`, year `"2021"`, empty
reference. -/
theorem handleSearch_mode_and_payload_witness :
    (∃ v ∈ ({ FilterState.initial with color := "Black", year := "2021" } : FilterState).values,
      v ≠ "") ∧
    queries ((handleSearch okBackend
        (stateOf true 0 true { FilterState.initial with color := "Black", year := "2021" }
          true)).run
        (stateOf true 0 true { FilterState.initial with color := "Black", year := "2021" }
          true)).2.calls
      = [Call.searchWatches
          { referenceCode := "", colorDial := "Black", year := some (JSNumber.finite 2021 0),
            condition := "", minPrice := none, maxPrice := none }] :=
  ⟨⟨"Black", by decide, by decide⟩,
   ((handleSearch_mode_and_payload okBackend
      (stateOf true 0 true { FilterState.initial with color := "Black", year := "2021" } true)
      ⟨"Black", by decide, by decide⟩).2 ⟨rfl, rfl⟩).trans (by decide!)⟩

end Search
